import Mathlib

/-!
Verification of the voice-AI news scraper core: the keyword relevance
classifier (src/ai_voice_scraper/processors/content_processor.py together
with src/ai_voice_scraper/config/keywords.py), the fallback persistence
layer (src/ai_voice_scraper/storage/db_manager.py), and the pipeline
orchestrator (src/ai_voice_scraper/core/pipeline.py).

Conventions of the embedding:
* Python dict records become structures with Option-valued fields; a
  missing key is None.
* `dict[key]` access that can raise KeyError is modelled by matching on
  the Option and routing to the same result the surrounding try/except
  produces in the source.
* Nondeterministic environment inputs (generated uuid, current time,
  success of the underlying file write, reachability of MongoDB) are
  passed explicitly as parameters.
* Only the file-storage branch of each db_manager function is embedded in
  full; the branch-selection logic (`USE_FILE_STORAGE or not await
  test_mongodb_connection()`) is embedded separately as `select_backend`.
-/

namespace AIVoiceScraper

/-! ## Keyword tables (src/ai_voice_scraper/config/keywords.py) -/

/-- Primary voice-AI keyword tier, transcribed from src/ai_voice_scraper/config/keywords.py. -/
def PRIMARY_VOICE_AI_KEYWORDS : List String := [
  "voice ai", "voice assistant", "voice synthesis", "voice clone", "voice cloning",
  "speech synthesis", "speech recognition", "text to speech", "tts", "speech to text", "stt",
  "voice generation", "voice model", "voice transformer", "voice conversion", "voice deepfake",
  "synthetic voice", "ai voice", "neural voice", "voice neural network", "voice ml",
  "voice machine learning", "voice deep learning", "voice transformer", "elevenlabs", "play.ht",
  "murf.ai", "resemble.ai", "wellsaid", "wellsaidlabs", "voice recognition", "voice interface",
  "voice user interface", "vui", "voice computing", "voice tech", "voice technology",
  "voice-first", "voice first", "voice application", "voice app", "voice-enabled",
  "voice enabled", "voice-activated", "voice activated", "voice-controlled", "voice controlled",
  "voice-driven", "voice driven", "voice-based", "voice based", "voice-powered", "voice powered",
  "voice-operated", "voice operated", "voice-directed", "voice directed", "voice-guided",
  "voice guided", "voice-centric", "voice centric", "voice-focused", "voice focused",
  "voice-oriented", "voice oriented", "voice-optimized", "voice optimized", "voice-specific",
  "voice specific", "voice-targeted", "voice targeted", "voice-only", "voice only",
  "voice-exclusive", "voice exclusive", "voice-primary", "voice primary", "voice-secondary",
  "voice secondary", "voice-tertiary", "voice tertiary", "voice-quaternary", "voice quaternary",
  "voice-quinary", "voice quinary", "voice-senary", "voice senary", "voice-septenary",
  "voice septenary", "voice-octonary", "voice octonary", "voice-nonary", "voice nonary",
  "voice-denary", "voice denary", "voice-undenary", "voice undenary", "voice-duodenary",
  "voice duodenary", "voice-tredenary", "voice tredenary", "voice-quattuordenary",
  "voice quattuordenary", "voice-quindenary", "voice quindenary", "voice-sexdenary",
  "voice sexdenary", "voice-septendenary", "voice septendenary", "voice-octodenary",
  "voice octodenary", "voice-novemdenary", "voice novemdenary", "voice-vigintenary",
  "voice vigintenary"
]

/-- Secondary voice-AI keyword tier, transcribed from src/ai_voice_scraper/config/keywords.py. -/
def SECONDARY_VOICE_AI_KEYWORDS : List String := [
  "audio generation", "audio synthesis", "audio clone", "audio cloning", "audio deepfake",
  "synthetic audio", "ai audio", "neural audio", "audio neural network", "audio ml",
  "audio machine learning", "audio deep learning", "audio transformer", "audio model",
  "audio generation", "audio synthesis", "audio clone", "audio cloning", "audio deepfake",
  "synthetic audio", "ai audio", "neural audio", "audio neural network", "audio ml",
  "audio machine learning", "audio deep learning", "audio transformer", "audio model"
]

/-- Context keyword tier, transcribed from src/ai_voice_scraper/config/keywords.py. -/
def CONTEXT_KEYWORDS : List String := [
  "generative ai", "gen ai", "artificial intelligence", "machine learning", "deep learning",
  "neural network", "transformer", "model", "algorithm", "training", "fine-tuning", "fine tuning",
  "dataset", "data set", "corpus", "corpora", "sample", "samples", "sampling", "generation",
  "synthesis", "synthetic", "clone", "cloning", "deepfake", "deep fake", "fake", "real-time",
  "real time", "realtime", "streaming", "stream", "api", "apis", "service", "services",
  "platform", "platforms", "tool", "tools", "toolkit", "toolkits", "library", "libraries",
  "framework", "frameworks", "sdk", "sdks", "development kit", "development kits",
  "developer kit", "developer kits", "developer tool", "developer tools", "development tool",
  "development tools", "developer platform", "developer platforms", "development platform",
  "development platforms"
]

/-- Combined keyword list: ALL_VOICE_AI_KEYWORDS = PRIMARY_VOICE_AI_KEYWORDS + SECONDARY_VOICE_AI_KEYWORDS. -/
def ALL_VOICE_AI_KEYWORDS : List String :=
  PRIMARY_VOICE_AI_KEYWORDS ++ SECONDARY_VOICE_AI_KEYWORDS


/-! ## Substring matching

Python membership `kw in text` is an unanchored substring test; `str.lower`
maps upper-case letters to lower-case (all keyword tables and test texts
are ASCII). -/

/-- Lower-case a string into its character list, as Python `text.lower()`. -/
def pyLower (s : String) : List Char := s.data.map Char.toLower

/-- Boolean test that the first character list is a prefix of the second. -/
def isPrefixOfCL : List Char → List Char → Bool
  | [], _ => true
  | _ :: _, [] => false
  | a :: as, b :: bs => a == b && isPrefixOfCL as bs

/-- Boolean unanchored substring test, as Python `needle in hay`. -/
def containsSub (needle : List Char) : List Char → Bool
  | [] => isPrefixOfCL needle []
  | c :: t => isPrefixOfCL needle (c :: t) || containsSub needle t

/-- A keyword occurs in an already lower-cased text. -/
def kwIn (kw : String) (textLower : List Char) : Bool :=
  containsSub kw.data textLower

/-! ## The relevance classifier

Embedding of `is_relevant_to_voice_ai` from
src/ai_voice_scraper/processors/content_processor.py: an empty text is
rejected; any primary-tier match accepts; otherwise two or more matches
over `ALL_VOICE_AI_KEYWORDS` accept; otherwise reject. The function never
consults `CONTEXT_KEYWORDS` and performs no sentence-level analysis. -/

def is_relevant_to_voice_ai (text : String) : Bool :=
  if text = "" then false
  else
    let text_lower := pyLower text
    let primary_matches := PRIMARY_VOICE_AI_KEYWORDS.filter (fun kw => kwIn kw text_lower)
    if !primary_matches.isEmpty then true
    else
      let all_keyword_matches := ALL_VOICE_AI_KEYWORDS.filter (fun kw => kwIn kw text_lower)
      if 2 ≤ all_keyword_matches.length then true
      else false

/-! ## Sentence splitting

The sentence-level acceptance rule exists only in the specification text;
to state it we split a lower-cased text at the characters that the spec
names as sentence delimiters. -/

/-- A sentence delimiter in the sense of the specification. -/
def isSentenceDelim (c : Char) : Bool := c == '.' || c == '!' || c == '?'

/-- Split a character list into sentences at the delimiters. -/
def splitSentences : List Char → List (List Char)
  | [] => [[]]
  | c :: t =>
    match splitSentences t with
    | [] => [[]]
    | s :: rest =>
      if isSentenceDelim c then [] :: s :: rest
      else (c :: s) :: rest

/-! ## Persistence layer (src/ai_voice_scraper/storage/db_manager.py)

Records are Python dicts; we model the fields that the db_manager code
reads or writes, with Option for possibly missing keys, plus one opaque
`extra` field standing for all remaining payload fields. -/

/-- A news-item record as handled by `store_news_item`. -/
structure NewsItem where
  _id : Option String
  url : Option String
  title : Option String
  published_date : Option String
  stored_at : Option String
  extra : String
deriving DecidableEq, Repr

/-- A reaction record as handled by `store_reaction`. -/
structure Reaction where
  _id : Option String
  url : Option String
  content : Option String
  sentiment : Option String
  subreddit : Option String
  stored_at : Option String
  extra : String
deriving DecidableEq, Repr

/-- Per-call environment for a store operation: the uuid that `uuid.uuid4()`
returns, the timestamp that `datetime.now().isoformat()` returns, and
whether the file write inside `save_file_data` succeeds. -/
structure StoreEnv where
  fresh : String
  now : String
  writeOk : Bool
deriving DecidableEq, Repr

/-- The in-place mutation both store functions perform first: assign a
fresh `_id` when the key is absent, then unconditionally overwrite
`stored_at` with the current time. -/
def decorate (env : StoreEnv) (item : NewsItem) : NewsItem :=
  { item with _id := some (item._id.getD env.fresh), stored_at := some env.now }

/-- Same first-step mutation for reaction records. -/
def decorateReaction (env : StoreEnv) (r : Reaction) : Reaction :=
  { r with _id := some (r._id.getD env.fresh), stored_at := some env.now }

/-- The update-or-append loop of the file branch of `store_news_item`:
replace the first stored record whose url equals the new record url,
else append. -/
def upsertByUrl (item : NewsItem) (u : String) : List NewsItem → List NewsItem
  | [] => [item]
  | it :: rest =>
    if it.url == some u then item :: rest
    else it :: upsertByUrl item u rest

/-- The part of the file branch of `store_news_item` that runs after the
in-place mutation, taking the already mutated record `it2`.

Control flow mirrored from the source: the `for` loop compares
`item.get('url') == news_item['url']`, so a missing url raises KeyError
only when the loop body runs, i.e. when the store is nonempty; the log
line reads `news_item['title']` before `save_file_data` runs, so a
missing title aborts the call before anything is persisted; the Boolean
result of `save_file_data` is ignored, so the identifier is returned even
when the write failed. Every raise lands in the enclosing `except`, which
returns None. -/
def store_news_item_core (env : StoreEnv) (store : List NewsItem) (it2 : NewsItem) :
    List NewsItem × Option String :=
  match store, it2.url with
  | [], _ =>
    match it2.title with
    | none => (store, none)
    | some _ => (if env.writeOk then [it2] else store, it2._id)
  | _ :: _, none => (store, none)
  | s :: srest, some u =>
    match it2.title with
    | none => (store, none)
    | some _ => (if env.writeOk then upsertByUrl it2 u (s :: srest) else store, it2._id)

/-- File branch of `store_news_item`. Result: (the mutated input record,
the persisted store after the call, the returned identifier). -/
def store_news_item (env : StoreEnv) (store : List NewsItem) (item : NewsItem) :
    NewsItem × List NewsItem × Option String :=
  let it1 := if item._id.isNone then { item with _id := some env.fresh } else item
  let it2 := { it1 with stored_at := some env.now }
  (it2, store_news_item_core env store it2)

/-- The match condition of the file branch of `store_reaction`:
`item.get('url') == reaction.get('url') or item.get('content') ==
reaction.get('content')`. Two records that both lack a url compare equal
on the url disjunct, exactly as `None == None` does in Python. -/
def reactionMatches (stored incoming : Reaction) : Bool :=
  stored.url == incoming.url || stored.content == incoming.content

/-- The update-or-append loop of the file branch of `store_reaction`. -/
def upsertReaction (r : Reaction) : List Reaction → List Reaction
  | [] => [r]
  | it :: rest =>
    if reactionMatches it r then r :: rest
    else it :: upsertReaction r rest

/-- File branch of `store_reaction`. The file branch only uses `.get`
accesses and constant log strings, so no KeyError is possible; the write
result is again ignored. -/
def store_reaction (env : StoreEnv) (store : List Reaction) (r : Reaction) :
    Reaction × List Reaction × Option String :=
  let r1 := if r._id.isNone then { r with _id := some env.fresh } else r
  let r2 := { r1 with stored_at := some env.now }
  let newStore := upsertReaction r2 store
  (r2, if env.writeOk then newStore else store, r2._id)

/-- Number of stored news items carrying a given url. -/
def urlCount (u : String) (store : List NewsItem) : Nat :=
  store.countP (fun it => it.url == some u)

/-- The store holds no duplicate natural keys. -/
def noDupUrls (store : List NewsItem) : Prop :=
  ∀ u, urlCount u store ≤ 1

/-! ## Backend-selection state (src/ai_voice_scraper/storage/db_manager.py)

`USE_FILE_STORAGE` is a module global, set when client construction fails
and again when a ping fails; `client is None` exactly when construction
failed. -/

/-- The module-level backend state. -/
structure DbState where
  useFileStorage : Bool
  clientSome : Bool
deriving DecidableEq, Repr

/-- Embedding of `test_mongodb_connection`: returns False without probing
while `USE_FILE_STORAGE` is already set or the client is None; otherwise
pings, and a failed ping sets `USE_FILE_STORAGE`. `pingOk` is the
reachability of MongoDB at the moment of the call. -/
def test_mongodb_connection (st : DbState) (pingOk : Bool) : Bool × DbState :=
  if st.useFileStorage || !st.clientSome then (false, st)
  else if pingOk then (true, st)
  else (false, { st with useFileStorage := true })

/-- Embedding of the per-operation backend choice
`use_files = USE_FILE_STORAGE or not await test_mongodb_connection()`:
Python `or` short-circuits, so the probe is skipped entirely once
`USE_FILE_STORAGE` is set. Returns (use the file backend?, new state). -/
def select_backend (st : DbState) (pingOk : Bool) : Bool × DbState :=
  if st.useFileStorage then (true, st)
  else
    let r := test_mongodb_connection st pingOk
    (!r.1, r.2)

/-! ## Run summaries (src/ai_voice_scraper/storage/db_manager.py) -/

/-- The `run_data` dict passed to `store_run_summary`; every field is read
with `.get` and a default. -/
structure RunData where
  articles_found : Option Nat
  articles_processed : Option Nat
  reddit_posts : Option Nat
  sentiment_summary : Option (List (String × Nat))
  top_keywords : Option (List String)
  subreddit_activity : Option (List (String × Nat))
deriving DecidableEq, Repr

/-- The stored run-summary record built by `store_run_summary`. -/
structure RunSummary where
  _id : String
  timestamp : String
  date : String
  articles_found : Nat
  articles_processed : Nat
  reddit_posts : Nat
  sentiment_summary : List (String × Nat)
  top_keywords : List String
  subreddit_activity : List (String × Nat)
deriving DecidableEq, Repr

/-- The record construction at the top of `store_run_summary`: a generated
identifier, the full timestamp, the date string, and the `.get` defaults. -/
def mkRunSummary (fresh ts date : String) (rd : RunData) : RunSummary :=
  { _id := fresh
    timestamp := ts
    date := date
    articles_found := rd.articles_found.getD 0
    articles_processed := rd.articles_processed.getD 0
    reddit_posts := rd.reddit_posts.getD 0
    sentiment_summary := rd.sentiment_summary.getD []
    top_keywords := rd.top_keywords.getD []
    subreddit_activity := rd.subreddit_activity.getD [] }

/-- Python slice `runs[-10:]`: the last ten records, or all of them when
fewer than ten exist. -/
def pyTail10 (l : List RunSummary) : List RunSummary :=
  l.drop (l.length - 10)

/-- File branch of `store_run_summary`: always append the new record, keep
only the last ten, save (result ignored), return the generated identifier. -/
def store_run_summary (fresh ts date : String) (writeOk : Bool) (rd : RunData)
    (runs : List RunSummary) : List RunSummary × Option String :=
  let rs := mkRunSummary fresh ts date rd
  let runs2 := pyTail10 (runs ++ [rs])
  (if writeOk then runs2 else runs, some rs._id)

/-- A sequence of `store_run_summary` calls (all with successful writes),
folded over the stored state. Each input is (uuid, timestamp, date,
run data). -/
def runCalls (inputs : List (String × String × String × RunData))
    (init : List RunSummary) : List RunSummary :=
  inputs.foldl (fun st p => (store_run_summary p.1 p.2.1 p.2.2.1 true p.2.2.2 st).1) init

/-- Build the summary record of one element of a `runCalls` input list. -/
def mkRS (p : String × String × String × RunData) : RunSummary :=
  mkRunSummary p.1 p.2.1 p.2.2.1 p.2.2.2

/-! ## Recent-news retrieval (src/ai_voice_scraper/storage/db_manager.py)

`get_recent_news` reads `item.get('published_date', '')` and parses it
with `datetime.fromisoformat`; the parse of the empty string always
raises, and any raise inside the per-item `try` appends the item. The
parser itself is an external library function, abstracted as a parameter
`parse` into an ordered time domain (`Int`); `cutoff` is the precomputed
`datetime.now() - timedelta(days=days)`. -/

/-- The parsed publish date of an item: a missing key yields the empty
string, which never parses. -/
def parsedDate (parse : String → Option Int) (it : NewsItem) : Option Int :=
  match it.published_date with
  | none => none
  | some s => if s = "" then none else parse s

/-- The per-item filter loop of the file branch of `get_recent_news`: keep
an item when its date parses to a time not before the cutoff, and also
keep it when the parse raises. -/
def get_recent_news (parse : String → Option Int) (cutoff : Int) :
    List NewsItem → List NewsItem
  | [] => []
  | it :: rest =>
    match parsedDate parse it with
    | some d =>
      if cutoff ≤ d then it :: get_recent_news parse cutoff rest
      else get_recent_news parse cutoff rest
    | none => it :: get_recent_news parse cutoff rest

/-! ## Pipeline orchestrator (src/ai_voice_scraper/core/pipeline.py)

Collaborator outcomes are injected: each is an `Except`, where `.error`
stands for the collaborator raising. Stage wrapping mirrors the source:
news scraping is wrapped in try/except (failure yields the empty list),
content processing is wrapped per item, Reddit scraping is wrapped
(failure yields the empty list), the store functions catch internally and
never raise, `store_run_summary` and both notifiers are wrapped. The
sentiment tally loop is NOT wrapped: `sentiment_counts[sentiment] += 1`
raises KeyError whenever the label is not one of the three preset keys. -/

/-- Counts record returned by `run_pipeline`. -/
structure PipelineCounts where
  articles_found : Nat
  articles_processed : Nat
  reddit_posts : Nat
deriving DecidableEq, Repr

/-- Injected collaborator behavior for one pipeline run. -/
structure PipelineEnv where
  scrapeNews : Except String (List NewsItem)
  processContent : NewsItem → Except String (Option NewsItem)
  redditConfigured : Bool
  scrapeReddit : Except String (List Reaction)
  emailConfigured : Bool
  emailSend : Except String Unit
  slackConfigured : Bool
  slackSend : Except String Unit

/-- `reaction.get('sentiment', 'neutral')`. -/
def sentimentLabel (r : Reaction) : String := r.sentiment.getD "neutral"

/-- The unguarded tally loop over `sentiment_counts`, a dict with exactly
the keys positive, negative and neutral: any other label raises KeyError. -/
def tallySentiments : List Reaction → Nat × Nat × Nat → Except String (Nat × Nat × Nat)
  | [], acc => .ok acc
  | r :: rest, (p, n, u) =>
    match sentimentLabel r with
    | "positive" => tallySentiments rest (p + 1, n, u)
    | "negative" => tallySentiments rest (p, n + 1, u)
    | "neutral" => tallySentiments rest (p, n, u + 1)
    | _ => .error "KeyError"

/-- Step 1 result: the scraped news items, empty on a caught failure. -/
def pipelineNews (env : PipelineEnv) : List NewsItem :=
  match env.scrapeNews with
  | .ok l => l
  | .error _ => []

/-- Step 2 result: items accepted by `process_content`; per-item failures
are caught and skipped. -/
def pipelineProcessed (env : PipelineEnv) : List NewsItem :=
  (pipelineNews env).foldl
    (fun acc it =>
      match env.processContent it with
      | .ok (some p) => acc ++ [p]
      | .ok none => acc
      | .error _ => acc)
    []

/-- Step 3 result: the scraped reactions, empty when Reddit is not
configured or scraping failed. -/
def pipelineReactions (env : PipelineEnv) : List Reaction :=
  if env.redditConfigured then
    match env.scrapeReddit with
    | .ok l => l
    | .error _ => []
  else []

/-- Embedding of `run_pipeline`: the only uncaught raise site in the
function body is the sentiment tally; everything after it (run-summary
storage and both notifiers) is wrapped and cannot change the result. -/
def run_pipeline (env : PipelineEnv) : Except String PipelineCounts :=
  match tallySentiments (pipelineReactions env) (0, 0, 0) with
  | .error e => .error e
  | .ok _ =>
    .ok { articles_found := (pipelineNews env).length
          articles_processed := (pipelineProcessed env).length
          reddit_posts := (pipelineReactions env).length }

/-- A sentiment label the tally dict can accept. -/
def goodLabel (r : Reaction) : Bool :=
  sentimentLabel r == "positive" || sentimentLabel r == "negative" ||
    sentimentLabel r == "neutral"

/-! ## Concrete records used by counterexamples and witnesses -/

/-- A news item with a url and a title and no preset identifier. -/
def itemI : NewsItem :=
  { _id := none, url := some "https://example.com/a", title := some "t1"
    published_date := none, stored_at := none, extra := "v1" }

/-- A second news item sharing the url of `itemI` with different fields. -/
def itemJ : NewsItem :=
  { _id := none, url := some "https://example.com/a", title := some "t2"
    published_date := none, stored_at := none, extra := "v2" }

/-- A news item with no publish date. -/
def itemNoDate : NewsItem :=
  { _id := some "k1", url := some "https://example.com/d", title := some "t"
    published_date := none, stored_at := none, extra := "" }

/-- Store environment for a first call. -/
def envA : StoreEnv := { fresh := "id-1", now := "ts-1", writeOk := true }

/-- Store environment for a second call. -/
def envB : StoreEnv := { fresh := "id-2", now := "ts-2", writeOk := true }

/-- Store environment whose file write fails. -/
def envFail : StoreEnv := { fresh := "id-3", now := "ts-3", writeOk := false }

/-- A stored reaction with url u2 and content c. -/
def reactionStored : Reaction :=
  { _id := some "r-1", url := some "https://reddit.com/u2", content := some "c"
    sentiment := none, subreddit := none, stored_at := some "ts-0", extra := "" }

/-- An incoming reaction with url u1 (different from u2) but the same
content c. -/
def reactionNew : Reaction :=
  { _id := none, url := some "https://reddit.com/u1", content := some "c"
    sentiment := none, subreddit := none, stored_at := none, extra := "" }

/-- A reaction carrying a sentiment label outside the three preset keys. -/
def reactionMixed : Reaction :=
  { _id := none, url := some "https://reddit.com/x", content := some "c"
    sentiment := some "mixed", subreddit := some "r", stored_at := none, extra := "" }

/-- A reaction with no sentiment key (defaults to neutral). -/
def reactionNeutral : Reaction :=
  { _id := none, url := some "https://reddit.com/y", content := some "d"
    sentiment := none, subreddit := some "r", stored_at := none, extra := "" }

/-- A pipeline environment in which every optional collaborator fails and
the Reddit stage returns one reaction with the label mixed. -/
def envMixed : PipelineEnv :=
  { scrapeNews := .error "fetch down"
    processContent := fun _ => .error "processor down"
    redditConfigured := true
    scrapeReddit := .ok [reactionMixed]
    emailConfigured := true, emailSend := .error "smtp down"
    slackConfigured := true, slackSend := .error "slack down" }

/-- A pipeline environment in which every optional collaborator fails but
all reaction labels are acceptable. -/
def envNeutral : PipelineEnv :=
  { scrapeNews := .error "fetch down"
    processContent := fun _ => .error "processor down"
    redditConfigured := true
    scrapeReddit := .ok [reactionNeutral]
    emailConfigured := true, emailSend := .error "smtp down"
    slackConfigured := true, slackSend := .error "slack down" }

/-- A parse function that never succeeds. -/
def noParse : String → Option Int := fun _ => none

/-! ## Helper lemmas -/

/-- The first component of `store_news_item` is the input record after the
in-place mutation. -/
lemma store_news_item_fst (env : StoreEnv) (store : List NewsItem) (item : NewsItem) :
    (store_news_item env store item).1 = decorate env item := by
  cases item with
  | mk id0 url0 title0 pd0 sa0 ex0 =>
    cases id0 <;> simp [store_news_item, decorate]

/-- The first component of `store_reaction` is the input record after the
in-place mutation. -/
lemma store_reaction_fst (env : StoreEnv) (store : List Reaction) (r : Reaction) :
    (store_reaction env store r).1 = decorateReaction env r := by
  cases r with
  | mk id0 url0 c0 s0 sr0 sa0 ex0 =>
    cases id0 <;> simp [store_reaction, decorateReaction]

/-- Replacing or appending a record that does not satisfy `p` cannot raise
the `p`-count of the store. -/
lemma countP_upsert_le (item : NewsItem) (u : String) (p : NewsItem → Bool)
    (hip : p item = false) (s : List NewsItem) :
    (upsertByUrl item u s).countP p ≤ s.countP p := by
  induction s with
  | nil => simp [upsertByUrl, List.countP_cons, hip]
  | cons it rest ih =>
    cases hm : (it.url == some u) with
    | true =>
      simp [upsertByUrl, hm, List.countP_cons, hip]
    | false =>
      have hstep : upsertByUrl item u (it :: rest) = it :: upsertByUrl item u rest := by
        simp [upsertByUrl, hm]
      rw [hstep, List.countP_cons, List.countP_cons]
      omega

/-- Upserting a record with url `u` keeps the count of records with url
`u` at one when it was at most one. -/
lemma countP_upsert_self (item : NewsItem) (u : String)
    (hu : item.url = some u) (s : List NewsItem)
    (h : s.countP (fun it => it.url == some u) ≤ 1) :
    (upsertByUrl item u s).countP (fun it => it.url == some u) ≤ 1 := by
  induction s with
  | nil => simp [upsertByUrl, List.countP_cons, hu]
  | cons it rest ih =>
    cases hm : (it.url == some u) with
    | true =>
      have hrest : rest.countP (fun it => it.url == some u) = 0 := by
        rw [List.countP_cons_of_pos (fun x => x.url == some u) rest hm] at h
        omega
      have hstep : upsertByUrl item u (it :: rest) = item :: rest := by
        simp [upsertByUrl, hm]
      rw [hstep, List.countP_cons_of_pos (fun x => x.url == some u) rest (by simp [hu]),
        hrest]
    | false =>
      have hrest : rest.countP (fun it => it.url == some u) ≤ 1 := by
        rw [List.countP_cons_of_neg (fun x => x.url == some u) rest (by simp [hm])] at h
        exact h
      have hstep : upsertByUrl item u (it :: rest) = it :: upsertByUrl item u rest := by
        simp [upsertByUrl, hm]
      rw [hstep, List.countP_cons_of_neg (fun x => x.url == some u)
        (upsertByUrl item u rest) (by simp [hm])]
      exact ih hrest

/-- `store_news_item` preserves the no-duplicate-url invariant of the
persisted store. -/
lemma noDupUrls_store (env : StoreEnv) (st : List NewsItem) (item : NewsItem)
    (h : noDupUrls st) : noDupUrls (store_news_item env st item).2.1 := by
  have hd : (store_news_item env st item).2.1
      = (store_news_item_core env st (decorate env item)).1 := by
    cases item with
    | mk id0 url0 title0 pd0 sa0 ex0 => cases id0 <;> simp [store_news_item, decorate]
  rw [hd]
  intro u'
  unfold store_news_item_core
  rcases st with _ | ⟨s0, srest⟩
  · cases hti : (decorate env item).title
    · simpa using h u'
    · simp only [hti]
      by_cases hw : env.writeOk
      · simp only [hw, if_true]
        unfold urlCount
        cases hx : ((decorate env item).url == some u') <;>
          simp [List.countP_cons, hx]
      · simp only [hw, if_false]
        simpa using h u'
  · cases hurl : (decorate env item).url with
    | none => simpa using h u'
    | some u =>
      cases hti : (decorate env item).title
      · simpa using h u'
      · simp only [hti]
        by_cases hw : env.writeOk
        · simp only [hw, if_true]
          unfold urlCount
          by_cases heq : u' = u
          · subst heq
            exact countP_upsert_self _ _ hurl _ (h u')
          · refine le_trans (countP_upsert_le _ _ _ ?_ _) (h u')
            simp [hurl]
            exact fun hc => heq hc.symm
        · simp only [hw, if_false]
          exact h u'

/-- If every reaction in a list carries an acceptable sentiment label, the
tally loop completes from any accumulator. -/
lemma tallySentiments_ok (l : List Reaction) (h : ∀ r ∈ l, goodLabel r = true) :
    ∀ acc : Nat × Nat × Nat, ∃ x, tallySentiments l acc = .ok x := by
  induction l with
  | nil => exact fun acc => ⟨acc, rfl⟩
  | cons r rest ih =>
    intro acc
    have hr := h r (by simp)
    have hrest : ∀ r ∈ rest, goodLabel r = true := fun r hm => h r (by simp [hm])
    rcases acc with ⟨p, n, u⟩
    have step : tallySentiments (r :: rest) (p, n, u) = tallySentiments rest (p + 1, n, u)
        ∨ tallySentiments (r :: rest) (p, n, u) = tallySentiments rest (p, n + 1, u)
        ∨ tallySentiments (r :: rest) (p, n, u) = tallySentiments rest (p, n, u + 1) := by
      by_cases h1 : sentimentLabel r = "positive"
      · left
        simp [tallySentiments, h1]
      by_cases h2 : sentimentLabel r = "negative"
      · right; left
        simp [tallySentiments, h1, h2]
      by_cases h3 : sentimentLabel r = "neutral"
      · right; right
        simp [tallySentiments, h1, h2, h3]
      · exfalso
        simp [goodLabel, h1, h2, h3] at hr
    rcases step with hs | hs | hs <;> (rw [hs]; exact ih hrest _)

/-! ## Claim C1 -/

/-- Claim C1 counterexample: the text
"synthetic audio and audio generation" contains no primary-tier keyword,
yet `is_relevant_to_voice_ai` accepts it, because two secondary-tier
entries of `ALL_VOICE_AI_KEYWORDS` match. The claim that zero primary
matches force a False result is therefore wrong on the code. -/
theorem C1_counterexample :
    (PRIMARY_VOICE_AI_KEYWORDS.all
        (fun kw => !(kwIn kw (pyLower "synthetic audio and audio generation")))) = true
      ∧ is_relevant_to_voice_ai "synthetic audio and audio generation" = true := by
  decide

/-- Claim C1 (amended): for every text with no primary-tier keyword match
and fewer than two matches over the combined keyword list,
`is_relevant_to_voice_ai` returns False, regardless of context-tier
keyword occurrences (the function never reads `CONTEXT_KEYWORDS`). -/
theorem C1_amended_theorem (text : String)
    (hp : PRIMARY_VOICE_AI_KEYWORDS.all (fun kw => !(kwIn kw (pyLower text))) = true)
    (ha : (ALL_VOICE_AI_KEYWORDS.filter (fun kw => kwIn kw (pyLower text))).length < 2) :
    is_relevant_to_voice_ai text = false := by
  have h1 : PRIMARY_VOICE_AI_KEYWORDS.filter (fun kw => kwIn kw (pyLower text)) = [] := by
    rw [List.filter_eq_nil_iff]
    intro kw hkw
    simpa using List.all_eq_true.mp hp kw hkw
  by_cases h0 : text = ""
  · simp [is_relevant_to_voice_ai, h0]
  · simp only [is_relevant_to_voice_ai, h0, if_false, h1]
    simp only [List.isEmpty_nil, Bool.not_true, Bool.false_eq_true, if_false]
    rw [if_neg (by omega)]

/-- Claim C1 witness: the amended theorem applied to a text with no
keyword matches at all. -/
theorem C1_amended_witness : is_relevant_to_voice_ai "hello world" = false :=
  C1_amended_theorem "hello world" (by decide) (by decide)

/-! ## Claim C2 -/

/-- Claim C2 counterexample: the text
"speech recognition is here. we ship a new api." has exactly one
primary-tier match, exactly one match over the combined list (that same
primary), at least one context-tier match, and no single sentence
contains both a primary and a context keyword; the claim then requires
classification False, but `is_relevant_to_voice_ai` returns True: any
primary match accepts, and no sentence-level rule exists in the code. -/
theorem C2_counterexample :
    (PRIMARY_VOICE_AI_KEYWORDS.filter
        (fun kw => kwIn kw (pyLower "speech recognition is here. we ship a new api."))).length
        = 1
      ∧ (ALL_VOICE_AI_KEYWORDS.filter
          (fun kw =>
            kwIn kw (pyLower "speech recognition is here. we ship a new api."))).length = 1
      ∧ 1 ≤ (CONTEXT_KEYWORDS.filter
          (fun kw =>
            kwIn kw (pyLower "speech recognition is here. we ship a new api."))).length
      ∧ ((splitSentences (pyLower "speech recognition is here. we ship a new api.")).all
          (fun s => !(PRIMARY_VOICE_AI_KEYWORDS.any (fun kw => kwIn kw s)
              && CONTEXT_KEYWORDS.any (fun kw => kwIn kw s)))) = true
      ∧ is_relevant_to_voice_ai "speech recognition is here. we ship a new api." = true := by
  decide

/-- Claim C2 (amended): every nonempty text containing at least one
primary-tier keyword is classified relevant, regardless of where context
keywords sit; in particular a text whose single primary match shares no
sentence with any context match is still accepted, because the
implementation has no sentence-level rule. -/
theorem C2_amended_theorem (text : String) (hne : text ≠ "")
    (h : PRIMARY_VOICE_AI_KEYWORDS.any (fun kw => kwIn kw (pyLower text)) = true) :
    is_relevant_to_voice_ai text = true := by
  obtain ⟨kw, hkw, hpk⟩ := List.any_eq_true.mp h
  have hmem : kw ∈ PRIMARY_VOICE_AI_KEYWORDS.filter (fun kw => kwIn kw (pyLower text)) :=
    List.mem_filter.mpr ⟨hkw, hpk⟩
  cases hfil : PRIMARY_VOICE_AI_KEYWORDS.filter (fun kw => kwIn kw (pyLower text)) with
  | nil => rw [hfil] at hmem; exact absurd hmem (List.not_mem_nil kw)
  | cons a l => simp [is_relevant_to_voice_ai, hne, hfil]

/-- Claim C2 witness: the amended theorem applied to a short text with a
primary keyword. -/
theorem C2_amended_witness : is_relevant_to_voice_ai "voice ai is here" = true :=
  C2_amended_theorem "voice ai is here" (by decide) (by decide)

/-! ## Claim C3 -/

/-- Claim C3 counterexample: storing `itemI` (url u, no preset identifier)
assigns identifier id-1; storing `itemJ` with the same url afterwards
returns id-2, the identifier freshly assigned to the second item, not the
identifier of the already-existing record, contradicting the claim that
the second call returns the existing identifier. -/
theorem C3_counterexample :
    ((store_news_item envA [] itemI).2.1.map (fun it => it._id)) = [some "id-1"]
      ∧ (store_news_item envB (store_news_item envA [] itemI).2.1 itemJ).2.2 = some "id-2"
      ∧ some "id-2" ≠ some "id-1" := by
  decide

/-- Claim C3 (amended): two stores of items sharing one url leave exactly
one record for that url, holding the second item fields; the first call
returns the identifier assigned to the first item and the second call
returns the identifier carried by the second item after mutation (a fresh
one when it had none) rather than the identifier of the pre-existing
record; and `store_news_item` preserves the no-duplicate-url invariant of
the persisted store. -/
theorem C3_amended_theorem (env1 env2 : StoreEnv) (i i' : NewsItem) (u : String)
    (h1 : i.url = some u) (h2 : i'.url = some u)
    (ht : i.title.isSome = true) (ht' : i'.title.isSome = true)
    (hw1 : env1.writeOk = true) (hw2 : env2.writeOk = true) :
    (store_news_item env2 (store_news_item env1 [] i).2.1 i').2.1 = [decorate env2 i']
      ∧ urlCount u (store_news_item env2 (store_news_item env1 [] i).2.1 i').2.1 = 1
      ∧ (store_news_item env1 [] i).2.2 = some (i._id.getD env1.fresh)
      ∧ (store_news_item env2 (store_news_item env1 [] i).2.1 i').2.2
          = some (i'._id.getD env2.fresh)
      ∧ (∀ (env : StoreEnv) (st : List NewsItem) (item : NewsItem),
          noDupUrls st → noDupUrls (store_news_item env st item).2.1) := by
  obtain ⟨t1, ht1⟩ := Option.isSome_iff_exists.mp ht
  obtain ⟨t2, ht2⟩ := Option.isSome_iff_exists.mp ht'
  have hs1 : (store_news_item env1 [] i).2.1 = [decorate env1 i] := by
    cases i with
    | mk id0 url0 title0 pd0 sa0 ex0 =>
      cases id0 <;>
        simp_all [store_news_item, store_news_item_core, decorate, hw1]
  have hr1 : (store_news_item env1 [] i).2.2 = some (i._id.getD env1.fresh) := by
    cases i with
    | mk id0 url0 title0 pd0 sa0 ex0 =>
      cases id0 <;>
        simp_all [store_news_item, store_news_item_core, decorate, hw1]
  have hstep2 : (store_news_item env2 [decorate env1 i] i').2.1 = [decorate env2 i']
      ∧ (store_news_item env2 [decorate env1 i] i').2.2 = some (i'._id.getD env2.fresh) := by
    cases i' with
    | mk id0 url0 title0 pd0 sa0 ex0 =>
      cases id0 <;>
        simp_all [store_news_item, store_news_item_core, decorate, upsertByUrl, hw2]
  refine ⟨by rw [hs1]; exact hstep2.1, ?_, hr1, by rw [hs1]; exact hstep2.2,
    fun env st item h => noDupUrls_store env st item h⟩
  rw [hs1, hstep2.1]
  simp [urlCount, List.countP_cons, decorate, h2]

/-- Claim C3 witness: the amended theorem applied to the concrete pair of
items sharing one url. -/
theorem C3_amended_witness :
    (store_news_item envB (store_news_item envA [] itemI).2.1 itemJ).2.1
        = [decorate envB itemJ]
      ∧ urlCount "https://example.com/a"
          (store_news_item envB (store_news_item envA [] itemI).2.1 itemJ).2.1 = 1 := by
  have h := C3_amended_theorem envA envB itemI itemJ "https://example.com/a"
    (by decide) (by decide) (by decide) (by decide) (by decide) (by decide)
  exact ⟨h.1, h.2.1⟩

/-! ## Claim C4 -/

/-- Claim C4 counterexample: with `USE_FILE_STORAGE` already set and the
client constructed, an operation issued while the primary is reachable
again (ping would succeed) still selects the file backend and leaves the
state in fallback: there is no transition back. -/
theorem C4_counterexample :
    select_backend { useFileStorage := true, clientSome := true } true
      = (true, { useFileStorage := true, clientSome := true }) := by
  decide

/-- Claim C4 (amended): the fallback state is absorbing. While
`USE_FILE_STORAGE` is set, `test_mongodb_connection` returns False without
probing and every operation selects the file backend, whatever the
current reachability of the primary; recovery within a process lifetime is
impossible. -/
theorem C4_amended_theorem (st : DbState) (pingOk : Bool) (h : st.useFileStorage = true) :
    select_backend st pingOk = (true, st)
      ∧ test_mongodb_connection st pingOk = (false, st) := by
  constructor
  · simp [select_backend, h]
  · simp [test_mongodb_connection, h]

/-- Claim C4 witness: the amended theorem applied to the fallback state
with an unreachable primary. -/
theorem C4_amended_witness :
    select_backend { useFileStorage := true, clientSome := true } false
      = (true, { useFileStorage := true, clientSome := true }) :=
  (C4_amended_theorem { useFileStorage := true, clientSome := true } false (by decide)).1

/-! ## Claim C5 -/

/-- Claim C5 counterexample: when the underlying file write fails
(`save_file_data` returns False), `store_news_item` still returns the
assigned identifier although nothing was persisted, contradicting the
claim that a non-None identifier implies the record was stored. -/
theorem C5_counterexample :
    (store_news_item envFail [] itemI).2.2 = some "id-3"
      ∧ (store_news_item envFail [] itemI).2.1 = [] := by
  decide

/-- Claim C5 (amended): failures that raise inside the `store_news_item`
call (a missing url with a nonempty store, or a missing title) are caught
and surfaced as a None identifier with the persisted store unchanged; but
a failure of the file write itself is swallowed inside `save_file_data`,
whose Boolean result is ignored, so the call returns the item identifier
even though the record was not persisted. -/
theorem C5_amended_theorem (env : StoreEnv) (store : List NewsItem) (item : NewsItem) :
    ((store_news_item env store item).2.2 = none →
        (store_news_item env store item).2.1 = store)
      ∧ (env.writeOk = false → (store_news_item env store item).2.1 = store)
      ∧ (item.title.isSome = true →
          (store.isEmpty = true ∨ item.url.isSome = true) →
          (store_news_item env store item).2.2 = some (item._id.getD env.fresh)) := by
  cases item with
  | mk id0 url0 title0 pd0 sa0 ex0 =>
    refine ⟨?_, ?_, ?_⟩
    · cases id0 <;> cases url0 <;> cases title0 <;> rcases store with _ | ⟨s0, srest⟩ <;>
        by_cases hw : env.writeOk <;>
        simp_all [store_news_item, store_news_item_core]
    · intro hw
      cases id0 <;> cases url0 <;> cases title0 <;> rcases store with _ | ⟨s0, srest⟩ <;>
        simp_all [store_news_item, store_news_item_core]
    · intro hti hu
      cases id0 <;> cases url0 <;> cases title0 <;> rcases store with _ | ⟨s0, srest⟩ <;>
        simp_all [store_news_item, store_news_item_core]

/-- Claim C5 witness: the amended theorem applied to a failing write on an
empty store. -/
theorem C5_amended_witness :
    (store_news_item envFail [] itemI).2.1 = []
      ∧ (store_news_item envFail [] itemI).2.2 = some "id-3" := by
  refine ⟨(C5_amended_theorem envFail [] itemI).2.1 (by decide), ?_⟩
  have h := (C5_amended_theorem envFail [] itemI).2.2 (by decide) (Or.inl (by decide))
  simpa [itemI, envFail] using h

/-! ## Claim C6 -/

/-- Claim C6: `store_run_summary` always inserts a new record carrying the
generated identifier, the full timestamp and the date string, returning
the generated identifier; after any call at most ten summaries remain,
the surviving ones being a suffix of the previous store with the new
record appended (the oldest beyond the limit evicted, never an update);
and eleven consecutive calls from an empty store leave exactly the ten
records of calls two to eleven, the first evicted. -/
theorem C6_theorem :
    (∀ (fresh ts date : String) (rd : RunData) (writeOk : Bool) (runs : List RunSummary),
        (store_run_summary fresh ts date true rd runs).1
            = runs.drop (runs.length + 1 - 10) ++ [mkRunSummary fresh ts date rd]
          ∧ (store_run_summary fresh ts date true rd runs).1.length ≤ 10
          ∧ (store_run_summary fresh ts date writeOk rd runs).2 = some fresh
          ∧ (mkRunSummary fresh ts date rd)._id = fresh
          ∧ (mkRunSummary fresh ts date rd).timestamp = ts
          ∧ (mkRunSummary fresh ts date rd).date = date)
      ∧ (∀ p1 p2 p3 p4 p5 p6 p7 p8 p9 p10 p11 : String × String × String × RunData,
          runCalls [p1, p2, p3, p4, p5, p6, p7, p8, p9, p10, p11] []
            = [mkRS p2, mkRS p3, mkRS p4, mkRS p5, mkRS p6, mkRS p7, mkRS p8,
               mkRS p9, mkRS p10, mkRS p11]) := by
  constructor
  · intro fresh ts date rd writeOk runs
    have hdrop : pyTail10 (runs ++ [mkRunSummary fresh ts date rd])
        = runs.drop (runs.length + 1 - 10) ++ [mkRunSummary fresh ts date rd] := by
      unfold pyTail10
      rw [List.drop_append_eq_append_drop]
      congr 1
      · congr 1
        simp
      · have h0 : runs.length + 1 - 10 - runs.length = 0 := by omega
        simp [h0]
    refine ⟨?_, ?_, rfl, rfl, rfl, rfl⟩
    · simpa [store_run_summary] using hdrop
    · have heq : (store_run_summary fresh ts date true rd runs).1
          = runs.drop (runs.length + 1 - 10) ++ [mkRunSummary fresh ts date rd] := by
        simpa [store_run_summary] using hdrop
      rw [heq]
      simp [List.length_drop]
      omega
  · intro p1 p2 p3 p4 p5 p6 p7 p8 p9 p10 p11
    simp [runCalls, store_run_summary, pyTail10, mkRS]

/-! ## Claim C7 -/

/-- Claim C7 counterexample: the incoming reaction has a url, and that
natural key differs from the stored reaction url, yet the stored reaction
is replaced because the contents happen to be equal: deduplication is not
by url-if-present-else-content, but by url equality OR content equality. -/
theorem C7_counterexample :
    reactionNew.url.isSome = true
      ∧ reactionNew.url ≠ reactionStored.url
      ∧ (store_reaction envA [reactionStored] reactionNew).2.1
          = [decorateReaction envA reactionNew] := by
  decide

/-- Claim C7 (amended): on a one-record store, `store_reaction` replaces
the stored reaction exactly when the `.get` url fields compare equal or
the `.get` content fields compare equal (two absent urls compare equal,
as None == None does); otherwise the new reaction is appended. -/
theorem C7_amended_theorem (env : StoreEnv) (it r : Reaction) (hw : env.writeOk = true) :
    (store_reaction env [it] r).2.1
      = (if it.url == r.url || it.content == r.content
         then [decorateReaction env r]
         else [it, decorateReaction env r]) := by
  cases r with
  | mk id0 url0 c0 s0 sr0 sa0 ex0 =>
    cases id0 <;>
      by_cases hc : (it.url == url0 || it.content == c0) = true <;>
      simp_all [store_reaction, decorateReaction, upsertReaction, reactionMatches, hw]

/-- Claim C7 witness: the amended theorem applied to the concrete pair of
reactions with distinct urls and equal contents. -/
theorem C7_amended_witness :
    (store_reaction envA [reactionStored] reactionNew).2.1
      = (if reactionStored.url == reactionNew.url
            || reactionStored.content == reactionNew.content
         then [decorateReaction envA reactionNew]
         else [reactionStored, decorateReaction envA reactionNew]) :=
  C7_amended_theorem envA reactionStored reactionNew (by decide)

/-! ## Claim C8 -/

/-- Claim C8: the file branch of `get_recent_news` returns exactly the
stored items whose publish timestamp parses to a time not before the
cutoff, together with every item whose timestamp is missing or fails to
parse; such items are always included, never excluded. -/
theorem C8_theorem (parse : String → Option Int) (cutoff : Int) (items : List NewsItem) :
    get_recent_news parse cutoff items
        = items.filter (fun it =>
            match parsedDate parse it with
            | some d => decide (cutoff ≤ d)
            | none => true)
      ∧ (∀ it ∈ items, parsedDate parse it = none →
          it ∈ get_recent_news parse cutoff items)
      ∧ (∀ it ∈ get_recent_news parse cutoff items,
          it ∈ items ∧ ∀ d, parsedDate parse it = some d → cutoff ≤ d) := by
  have hfilter : get_recent_news parse cutoff items
      = items.filter (fun it =>
          match parsedDate parse it with
          | some d => decide (cutoff ≤ d)
          | none => true) := by
    induction items with
    | nil => rfl
    | cons it rest ih =>
      cases hp : parsedDate parse it with
      | none => simp [get_recent_news, hp, List.filter_cons, ih]
      | some d =>
        by_cases hcd : cutoff ≤ d <;>
          simp [get_recent_news, hp, List.filter_cons, hcd, ih]
  refine ⟨hfilter, ?_, ?_⟩
  · intro it hmem hnone
    rw [hfilter]
    exact List.mem_filter.mpr ⟨hmem, by simp [hnone]⟩
  · intro it hmem
    rw [hfilter] at hmem
    obtain ⟨hin, hpred⟩ := List.mem_filter.mp hmem
    refine ⟨hin, fun d hd => ?_⟩
    rw [hd] at hpred
    exact of_decide_eq_true hpred

/-- Claim C8 witness: the theorem applied to a store holding one item with
no publish date and a parse function that never succeeds: the item is
included. -/
theorem C8_witness : itemNoDate ∈ get_recent_news noParse 0 [itemNoDate] :=
  (C8_theorem noParse 0 [itemNoDate]).2.1 itemNoDate (by simp) (by rfl)

/-! ## Claim C9 -/

/-- Claim C9 counterexample: a run in which the optional collaborators
fail and the Reddit stage returns one reaction labelled "mixed" makes
`run_pipeline` raise a KeyError out of the unguarded sentiment tally
instead of completing with the counts record. -/
theorem C9_counterexample : run_pipeline envMixed = .error "KeyError" := by
  rfl

/-- Claim C9 (amended): for every combination of collaborator outcomes,
`run_pipeline` completes and returns the counts record
(articles_found, articles_processed, reddit_posts), provided every
reaction produced by the Reddit stage carries the sentiment label
positive, negative or neutral (or no label, which defaults to neutral);
a reaction carrying any other label raises a KeyError that escapes
`run_pipeline`, because the tally loop is outside every try block. -/
theorem C9_amended_theorem (env : PipelineEnv)
    (h : ∀ r ∈ pipelineReactions env, goodLabel r = true) :
    run_pipeline env
      = .ok { articles_found := (pipelineNews env).length
              articles_processed := (pipelineProcessed env).length
              reddit_posts := (pipelineReactions env).length } := by
  obtain ⟨x, hx⟩ := tallySentiments_ok (pipelineReactions env) h (0, 0, 0)
  unfold run_pipeline
  rw [hx]

/-- Claim C9 witness: the amended theorem applied to a run where every
optional collaborator fails and the one scraped reaction has no sentiment
label. -/
theorem C9_amended_witness :
    run_pipeline envNeutral
      = .ok { articles_found := 0, articles_processed := 0, reddit_posts := 1 } :=
  C9_amended_theorem envNeutral (by decide)

/-! ## Claim C10 -/

/-- Claim C10: both `store_news_item` and `store_reaction` mutate their
input record before any storage attempt, for every environment and store
state (including a failing write and the branches that return None): a
fresh identifier is assigned exactly when the record carries none, and
the stored-at field is unconditionally overwritten with the current
time. -/
theorem C10_theorem (env : StoreEnv) (store : List NewsItem) (item : NewsItem)
    (rstore : List Reaction) (r : Reaction) :
    (store_news_item env store item).1 = decorate env item
      ∧ (store_news_item env store item).1._id = some (item._id.getD env.fresh)
      ∧ (store_news_item env store item).1.stored_at = some env.now
      ∧ (store_reaction env rstore r).1 = decorateReaction env r
      ∧ (store_reaction env rstore r).1._id = some (r._id.getD env.fresh)
      ∧ (store_reaction env rstore r).1.stored_at = some env.now := by
  refine ⟨store_news_item_fst env store item, ?_, ?_,
    store_reaction_fst env rstore r, ?_, ?_⟩ <;>
    simp [store_news_item_fst, store_reaction_fst, decorate, decorateReaction]

end AIVoiceScraper
